import Mathlib

/-!
Verification of the tclh pointer registry (src/include/tclhPointerImpl.c).

Shallow embedding conventions:
* a native address (`void *`) is a `Nat`; the null pointer is address `0`;
* a pointer type tag (`Tclh_PointerTypeTag`, a `Tcl_Obj *` that may be NULL)
  is an `Option String`; `none` is the NULL / "void" tag; tag objects are
  compared by their string value, which subsumes the C identity fast paths;
* the two hash tables of `TclhPointerRegistry` (`pointers`, keyed by address,
  and `castables`, keyed by tag string) are association lists operated on by
  `alistLookup` / `alistInsert` / `alistRemove`, mirroring
  `Tcl_FindHashEntry` / `Tcl_CreateHashEntry` + `Tcl_SetHashValue` /
  `Tcl_DeleteHashEntry`;
* `int nRefs` is an `Int`; `TCLH_POINTER_NREFS_MAX` is `INT_MAX`;
* the Tcl error helpers are collapsed into the error constructors of
  `TclhResult`; `TCL_OK` is `TclhResult.ok`;
* the model is the 64-bit branch of the code (`sizeof(void*) == 8`), so the
  printed address is `0x%.16llx` and parsing reads an `unsigned long long`.
-/

/-- Pointer type tag: `Tclh_PointerTypeTag` is a nullable `Tcl_Obj *` holding
a string; `none` models a NULL tag (untyped / void pointer). -/
abbrev Tclh_PointerTypeTag := Option String

/-- Result of an operation: `TCL_OK` or the specific error reported through
the Tclh error helpers (`Tclh_ErrorPointerNull`, `PointerNotRegisteredError`,
`PointerTypeMismatchError`, `Tclh_ErrorPointerObjType`). -/
inductive TclhResult where
  | ok
  | errNullPointer
  | errNotRegistered
  | errTypeMismatch
  | errObjType
  deriving Repr, DecidableEq

/-- `TclhPointerRecord`: per-address registry entry. `nRefs` is `-1` for an
uncounted pointer, `n ≥ 1` for a counted pointer and `TCLH_POINTER_NREFS_MAX`
for a pinned pointer. -/
structure TclhPointerRecord where
  tagObj : Tclh_PointerTypeTag
  nRefs : Int
  deriving Repr, DecidableEq

/-- `TCLH_POINTER_NREFS_MAX` is `INT_MAX`. -/
def TCLH_POINTER_NREFS_MAX : Int := 2147483647

/-- `TclhPointerRegistry`: the table of registered pointers and the table of
permitted casts (subtag -> supertag edges). -/
structure TclhPointerRegistry where
  pointers : List (Nat × TclhPointerRecord)
  castables : List (String × String)
  deriving Repr, DecidableEq

/-- `Tclh_PointerRegistrationType`: the three lifetime modes. -/
inductive Tclh_PointerRegistrationType where
  | uncounted
  | counted
  | pinned
  deriving Repr, DecidableEq

/-- `Tclh_PointerTagRelation`: result of comparing two tags. -/
inductive Tclh_PointerTagRelation where
  | unrelated
  | equal
  | implicitlyCastable
  | explicitlyCastable
  deriving Repr, DecidableEq

/-- Association-list lookup, modelling `Tcl_FindHashEntry`. -/
def alistLookup {α β : Type} [DecidableEq α] : List (α × β) → α → Option β
  | [], _ => none
  | (k, v) :: rest, key => if k = key then some v else alistLookup rest key

/-- Association-list insert-or-replace, modelling `Tcl_CreateHashEntry`
followed by `Tcl_SetHashValue`. -/
def alistInsert {α β : Type} [DecidableEq α] : List (α × β) → α → β → List (α × β)
  | [], k, v => [(k, v)]
  | (k', v') :: rest, k, v =>
    if k' = k then (k, v) :: rest else (k', v') :: alistInsert rest k v

/-- Association-list removal, modelling `Tcl_DeleteHashEntry`. -/
def alistRemove {α β : Type} [DecidableEq α] : List (α × β) → α → List (α × β)
  | [], _ => []
  | (k', v') :: rest, k => if k' = k then rest else (k', v') :: alistRemove rest k

/-- `PointerTypeMatchesExpected`: an exact match of a tag against an expected
tag. A NULL expected tag matches everything; a NULL pointer tag matches only
a NULL expected tag; otherwise the tag strings are compared (`strcmp`). -/
def PointerTypeMatchesExpected
    (pointer_tag expected_tag : Tclh_PointerTypeTag) : Bool :=
  if pointer_tag = expected_tag ∨ expected_tag = none then
    true
  else if pointer_tag = none then
    false
  else
    pointer_tag = expected_tag

/-- Loop body of `PointerTypeCompatible`: walk the castables table from `tag`
for at most `fuel` hops (the source uses the hard limit 10), succeeding as
soon as a supertag matches `expected`. The source's check for a NULL value
stored in the castables table is dead code (`Tclh_PointerSubtagDefine` never
stores a NULL supertag), so the table values are plain strings here. -/
def PointerTypeCompatibleLoop (castables : List (String × String)) :
    Nat → String → Tclh_PointerTypeTag → Bool
  | 0, _, _ => false
  | fuel + 1, t, expected =>
    match alistLookup castables t with
    | none => false
    | some supertag =>
      if PointerTypeMatchesExpected (some supertag) expected then true
      else PointerTypeCompatibleLoop castables fuel supertag expected

/-- `PointerTypeCompatible`: `tag` is compatible with `expected` if it matches
exactly, or some ancestor of `tag` within 10 hops of the castables table
matches `expected`. -/
def PointerTypeCompatible (registryP : TclhPointerRegistry)
    (tag expected : Tclh_PointerTypeTag) : Bool :=
  if PointerTypeMatchesExpected tag expected then true
  else
    match tag with
    | none => false
    | some t => PointerTypeCompatibleLoop registryP.castables 10 t expected

/-- `PointerTagsSame`: exact tag equality (identity or `strcmp`). -/
def PointerTagsSame (tagA tagB : Tclh_PointerTypeTag) : Bool :=
  if tagA = tagB then true
  else
    match tagA, tagB with
    | none, _ => false
    | _, none => false
    | some a, some b => a = b

/-- Loop body of `PointerTagIsAncestor`: walk the castables table from `tag`
for at most `fuel` hops looking for `ancestor`. -/
def PointerTagIsAncestorLoop (castables : List (String × String)) :
    Nat → String → Tclh_PointerTypeTag → Bool
  | 0, _, _ => false
  | fuel + 1, t, ancestor =>
    match alistLookup castables t with
    | none => false
    | some supertag =>
      if PointerTagsSame (some supertag) ancestor then true
      else PointerTagIsAncestorLoop castables fuel supertag ancestor

/-- `PointerTagIsAncestor`: a NULL ancestor (void*) is an ancestor of every
tag; a NULL tag has no non-NULL ancestor; otherwise walk at most 10 hops. -/
def PointerTagIsAncestor (registryP : TclhPointerRegistry)
    (tag ancestor : Tclh_PointerTypeTag) : Bool :=
  match ancestor with
  | none => true
  | some _ =>
    match tag with
    | none => false
    | some t => PointerTagIsAncestorLoop registryP.castables 10 t ancestor

/-- `PointerTagCompare`: classify the relation of `tag` to `expectedTag`. -/
def PointerTagCompare (registryP : TclhPointerRegistry)
    (tag expectedTag : Tclh_PointerTypeTag) : Tclh_PointerTagRelation :=
  if tag = expectedTag then .equal
  else
    match expectedTag with
    | none => .implicitlyCastable
    | some _ =>
      match tag with
      | none => .explicitlyCastable
      | some _ =>
        if PointerTagsSame tag expectedTag then .equal
        else if PointerTagIsAncestor registryP tag expectedTag then .implicitlyCastable
        else if PointerTagIsAncestor registryP expectedTag tag then .explicitlyCastable
        else .unrelated

/-- `Tclh_PointerWrap`: wrap an address and a tag into a pointer `Tcl_Obj`.
The object's internal representation is exactly the (address, tag) pair. -/
def Tclh_PointerWrap (pointerValue : Nat) (tag : Tclh_PointerTypeTag) :
    Nat × Tclh_PointerTypeTag :=
  (pointerValue, tag)

/-- Outcome of `TclhPointerRegister`: the Tcl return code, the wrapped
pointer stored through `objPP`, and the registry state after the call. -/
structure RegisterOutcome where
  code : TclhResult
  handleObj : Option (Nat × Tclh_PointerTypeTag)
  registry : TclhPointerRegistry
  deriving Repr, DecidableEq

/-- `TclhPointerRegister`: register `pointer` under `tag` with the given
registration mode. Allocation failure (`TCLH_PANIC`) aborts the process and
is outside the model, so hash-entry creation always succeeds here. -/
def TclhPointerRegister (registryP : TclhPointerRegistry) (pointer : Nat)
    (tag : Tclh_PointerTypeTag)
    (registration : Tclh_PointerRegistrationType) : RegisterOutcome :=
  if pointer = 0 then
    ⟨.errNullPointer, none, registryP⟩
  else
    match alistLookup registryP.pointers pointer with
    | none =>
      ⟨.ok, some (Tclh_PointerWrap pointer tag),
        ⟨alistInsert registryP.pointers pointer
          ⟨if registration = .pinned then none else tag,
            match registration with
            | .uncounted => -1
            | .counted => 1
            | .pinned => TCLH_POINTER_NREFS_MAX⟩,
          registryP.castables⟩⟩
    | some ptrRecP =>
      if ptrRecP.nRefs = TCLH_POINTER_NREFS_MAX then
        ⟨.ok, some (Tclh_PointerWrap pointer tag), registryP⟩
      else if registration = .pinned then
        ⟨.ok, some (Tclh_PointerWrap pointer tag),
          ⟨alistInsert registryP.pointers pointer ⟨none, TCLH_POINTER_NREFS_MAX⟩,
            registryP.castables⟩⟩
      else if PointerTypeCompatible registryP tag ptrRecP.tagObj = true
          ∧ registration = .uncounted ∧ ptrRecP.nRefs < 0 then
        ⟨.ok, some (Tclh_PointerWrap pointer tag), registryP⟩
      else if PointerTypeCompatible registryP tag ptrRecP.tagObj = true
          ∧ registration = .counted ∧ ptrRecP.nRefs > 0 then
        ⟨.ok, some (Tclh_PointerWrap pointer tag),
          ⟨alistInsert registryP.pointers pointer
            ⟨ptrRecP.tagObj, ptrRecP.nRefs + 1⟩,
            registryP.castables⟩⟩
      else
        ⟨.ok, some (Tclh_PointerWrap pointer tag),
          ⟨alistInsert registryP.pointers pointer
            ⟨tag, if registration = .uncounted then -1 else 1⟩,
            registryP.castables⟩⟩

/-- `Tclh_PointerRegister`: uncounted registration. -/
def Tclh_PointerRegisterUncounted (registryP : TclhPointerRegistry)
    (pointer : Nat) (tag : Tclh_PointerTypeTag) : RegisterOutcome :=
  TclhPointerRegister registryP pointer tag .uncounted

/-- `Tclh_PointerRegisterCounted`: counted registration. -/
def Tclh_PointerRegisterCounted (registryP : TclhPointerRegistry)
    (pointer : Nat) (tag : Tclh_PointerTypeTag) : RegisterOutcome :=
  TclhPointerRegister registryP pointer tag .counted

/-- `Tclh_PointerRegisterPinned`: pinned registration. -/
def Tclh_PointerRegisterPinned (registryP : TclhPointerRegistry)
    (pointer : Nat) (tag : Tclh_PointerTypeTag) : RegisterOutcome :=
  TclhPointerRegister registryP pointer tag .pinned

/-- `PointerVerifyOrUnregisterTagged`: shared implementation of verify
(`unrefCount = 0`), unregister (`unrefCount = 1`) and invalidate
(`unrefCount = TCLH_POINTER_NREFS_MAX`). Returns the Tcl result code and the
registry state after the call. -/
def PointerVerifyOrUnregisterTagged (registryP : TclhPointerRegistry)
    (pointer : Nat) (tag : Tclh_PointerTypeTag) (unrefCount : Int) :
    TclhResult × TclhPointerRegistry :=
  match alistLookup registryP.pointers pointer with
  | some ptrRecP =>
    if PointerTypeCompatible registryP tag ptrRecP.tagObj = false then
      (.errTypeMismatch, registryP)
    else if unrefCount ≠ 0 then
      if ptrRecP.nRefs = TCLH_POINTER_NREFS_MAX then
        if unrefCount = TCLH_POINTER_NREFS_MAX then
          (.ok, ⟨alistRemove registryP.pointers pointer, registryP.castables⟩)
        else
          (.ok, registryP)
      else if ptrRecP.nRefs ≤ unrefCount then
        (.ok, ⟨alistRemove registryP.pointers pointer, registryP.castables⟩)
      else
        (.ok, ⟨alistInsert registryP.pointers pointer
          ⟨ptrRecP.tagObj, ptrRecP.nRefs - unrefCount⟩,
          registryP.castables⟩)
    else
      (.ok, registryP)
  | none =>
    if unrefCount = TCLH_POINTER_NREFS_MAX then
      (.ok, registryP)
    else
      (.errNotRegistered, registryP)

/-- `Tclh_PointerUnregisterTagged`: unregister with a tag check. -/
def Tclh_PointerUnregisterTagged (registryP : TclhPointerRegistry)
    (pointer : Nat) (tag : Tclh_PointerTypeTag) :
    TclhResult × TclhPointerRegistry :=
  PointerVerifyOrUnregisterTagged registryP pointer tag 1

/-- `Tclh_PointerInvalidateTagged`: unconditional removal request. -/
def Tclh_PointerInvalidateTagged (registryP : TclhPointerRegistry)
    (pointer : Nat) (tag : Tclh_PointerTypeTag) :
    TclhResult × TclhPointerRegistry :=
  PointerVerifyOrUnregisterTagged registryP pointer tag TCLH_POINTER_NREFS_MAX

/-- `Tclh_PointerVerifyTagged`: pure verification. -/
def Tclh_PointerVerifyTagged (registryP : TclhPointerRegistry)
    (pointer : Nat) (tag : Tclh_PointerTypeTag) :
    TclhResult × TclhPointerRegistry :=
  PointerVerifyOrUnregisterTagged registryP pointer tag 0

/-- `Tclh_PointerUnregister`: the untagged unregister. Pinned entries are
untouched; counted entries decrement, dropping the entry at a count of 1 or
below; uncounted entries are removed. -/
def Tclh_PointerUnregister (registryP : TclhPointerRegistry) (pointer : Nat) :
    TclhResult × TclhPointerRegistry :=
  match alistLookup registryP.pointers pointer with
  | some ptrRecP =>
    if ptrRecP.nRefs ≠ TCLH_POINTER_NREFS_MAX then
      if ptrRecP.nRefs ≤ 1 then
        (.ok, ⟨alistRemove registryP.pointers pointer, registryP.castables⟩)
      else
        (.ok, ⟨alistInsert registryP.pointers pointer
          ⟨ptrRecP.tagObj, ptrRecP.nRefs - 1⟩,
          registryP.castables⟩)
    else
      (.ok, registryP)
  | none => (.errNotRegistered, registryP)

/-- `Tclh_PointerUnwrapTagged` on an object that already has the pointer
internal representation `objP` (the string-conversion path is
`SetPointerFromAny`, modelled separately). Returns the Tcl result code and,
on success, the (pointer, tag) pair stored through `pvP` / `tagP`. -/
def Tclh_PointerUnwrapTagged (registryP : TclhPointerRegistry)
    (objP : Nat × Tclh_PointerTypeTag) (expectedTag : Tclh_PointerTypeTag) :
    TclhResult × Option (Nat × Tclh_PointerTypeTag) :=
  if expectedTag ≠ none ∧ (objP.1 ≠ 0 ∨ objP.2 ≠ none) ∧ objP.2 ≠ expectedTag then
    if PointerTypeCompatible registryP objP.2 expectedTag = false then
      (.errObjType, none)
    else
      (.ok, some (objP.1, objP.2))
  else
    (.ok, some (objP.1, objP.2))

/-- Hex digit character for a value below 16, lowercase as printed by
`%.16llx`. -/
def hexChar (d : Nat) : Char :=
  if d < 10 then Char.ofNat (48 + d) else Char.ofNat (87 + d)

/-- Zero-padded hex digits of `n`, most significant first: digit `i` from the
left is `n / 16 ^ (k - 1 - i) % 16`. `padHexDigits 16 n` is the digit string
printed by `%.16llx` for `n < 2 ^ 64`. -/
def padHexDigits : Nat → Nat → List Char
  | 0, _ => []
  | k + 1, n => hexChar (n / 16 ^ k % 16) :: padHexDigits k n

/-- `TclhPrintAddress`, 64-bit branch: `snprintf(buf, len, "0x%.16llx", ull)`
where `ull` is the address truncated to an `unsigned long long`. -/
def TclhPrintAddress (address : Nat) : String :=
  "0x" ++ String.mk (padHexDigits 16 (address % 2 ^ 64))

/-- `UpdatePointerTypeString`: the string representation generated for a
pointer object is the printed address, a `^` separator and the tag string
(empty for a NULL tag). The tag bytes are copied with their counted length,
so embedded NUL bytes of a tag survive formatting. -/
def UpdatePointerTypeString (objP : Nat × Tclh_PointerTypeTag) : String :=
  TclhPrintAddress objP.1 ++ "^" ++
    (match objP.2 with
     | none => ""
     | some t => t)

/-- Character class accepted by the `%llx` conversion of `sscanf` for a
digit: `0-9`, `a-f`, `A-F`. -/
def isHexDigitChar (c : Char) : Bool :=
  ('0' ≤ c && c ≤ '9') || ('a' ≤ c && c ≤ 'f') || ('A' ≤ c && c ≤ 'F')

/-- Numeric value of a hex digit character. -/
def hexCharVal (c : Char) : Nat :=
  if '0' ≤ c ∧ c ≤ '9' then c.toNat - 48
  else if 'a' ≤ c ∧ c ≤ 'f' then c.toNat - 87
  else c.toNat - 55

/-- Greedy scan of hex digits, accumulating the value; returns the value and
the unconsumed remainder, like the digit loop inside `sscanf`'s `%llx`. -/
def takeHexDigits : List Char → Nat → Nat × List Char
  | [], acc => (acc, [])
  | c :: rest, acc =>
    if isHexDigitChar c then takeHexDigits rest (16 * acc + hexCharVal c)
    else (acc, c :: rest)

/-- The C-string view of a counted Tcl string: `sscanf`, `strcmp` and
`Tcl_NewStringObj(s, -1)` all stop at the first NUL byte. -/
def cStringView (s : String) : List Char :=
  s.data.takeWhile (fun c => c ≠ Char.ofNat 0)

/-- Fallback of `SetPointerFromAny` when the `sscanf` pattern did not match:
the C string must compare equal (`strcmp`) to `NULL`, giving the null address
with no tag; otherwise the value is rejected with the
`Invalid pointer format.` error, returned as `none` here. -/
def scanFailed (srep : List Char) : Option (Nat × Tclh_PointerTypeTag) :=
  if srep = ['N', 'U', 'L', 'L'] then some (0, none) else none

/-- Core of `SetPointerFromAny` on the C-string view of the value's string
representation. The scan `sscanf(srep, "0x%llx%c%n", ...)` is modelled as the
literal `0x`, one or more hex digits (value truncated to 64 bits as an
`unsigned long long`), then one character that must be `^`; everything after
the `^` (up to the first NUL) is the tag, an empty remainder meaning a NULL
tag. (The C library scan additionally tolerates whitespace, a sign and a
second `0x` prefix between the literal prefix and the digits; no claim here
depends on such inputs.) -/
def SetPointerFromAnyList (srep : List Char) : Option (Nat × Tclh_PointerTypeTag) :=
  match srep with
  | c0 :: c1 :: rest =>
    if c0 = '0' ∧ c1 = 'x' then
      match rest with
      | [] => scanFailed srep
      | c :: _ =>
        if isHexDigitChar c then
          match takeHexDigits rest 0 with
          | (v, rest') =>
            match rest' with
            | terminator :: tagChars =>
              if terminator = '^' then
                if tagChars = [] then some (v % 2 ^ 64, none)
                else some (v % 2 ^ 64, some (String.mk tagChars))
              else scanFailed srep
            | [] => scanFailed srep
        else scanFailed srep
    else scanFailed srep
  | _ => scanFailed srep

/-- `SetPointerFromAny`: parse the string representation of a pointer,
operating on the C-string view of the object's bytes. -/
def SetPointerFromAny (s : String) : Option (Nat × Tclh_PointerTypeTag) :=
  SetPointerFromAnyList (cStringView s)

/-- Specification-side hop relation: `iterSuper castables k t` is the tag
reached from `t` by following exactly `k` subtag -> supertag edges, or `none`
if the chain ends earlier. Used to state that `PointerTagIsAncestor` finds
exactly the ancestors reachable within the fixed hop bound of 10. -/
def iterSuper (castables : List (String × String)) : Nat → String → Option String
  | 0, t => some t
  | k + 1, t =>
    match alistLookup castables t with
    | none => none
    | some s => iterSuper castables k s

/-- Side condition of the amended round-trip claim: the tag is NULL, or a
nonempty string without embedded NUL bytes (an empty tag string parses back
as a NULL tag, and bytes after an embedded NUL are invisible to the C-string
based parser). -/
def tagRoundTrippable : Tclh_PointerTypeTag → Bool
  | none => true
  | some s => !s.data.isEmpty && s.data.all (fun c => c ≠ Char.ofNat 0)

/-- Well-formedness of the reference counts: every registry record is either
the uncounted sentinel `-1` or a count between 1 and
`TCLH_POINTER_NREFS_MAX`. This is what the C `int` registry maintains. -/
def WfCounts (registryP : TclhPointerRegistry) : Prop :=
  ∀ p r, (p, r) ∈ registryP.pointers →
    r.nRefs = -1 ∨ (1 ≤ r.nRefs ∧ r.nRefs ≤ TCLH_POINTER_NREFS_MAX)

/-- Registry with one uncounted entry tagged `Foo` at address 1, used to
refute the claimed verify direction. -/
def c1CexReg : TclhPointerRegistry := ⟨[(1, ⟨some "Foo", -1⟩)], []⟩

/-- Registry with one uncounted entry tagged `Foo` at address 1, used to
refute unconditional invalidation. -/
def c7CexReg : TclhPointerRegistry := ⟨[(1, ⟨some "Foo", -1⟩)], []⟩

/-- Castables table with the deliberate cycle `A -> B -> A`. -/
def cyclicTagReg : TclhPointerRegistry := ⟨[], [("A", "B"), ("B", "A")]⟩

/-- Castables table with an 11-edge chain `T0 -> T1 -> ... -> T11`:
`T10` is 10 hops from `T0` (exactly the bound), `T11` is 11 hops away. -/
def chainTagReg : TclhPointerRegistry :=
  ⟨[], [("T0", "T1"), ("T1", "T2"), ("T2", "T3"), ("T3", "T4"), ("T4", "T5"),
        ("T5", "T6"), ("T6", "T7"), ("T7", "T8"), ("T8", "T9"), ("T9", "T10"),
        ("T10", "T11")]⟩

/-- Scenario start: empty registry, no subtag edges. -/
def tclhScenarioReg0 : TclhPointerRegistry := ⟨[], []⟩

/-- Scenario after `register(0x1000, "Foo", Uncounted)`. -/
def tclhScenarioReg1 : TclhPointerRegistry :=
  (TclhPointerRegister tclhScenarioReg0 4096 (some "Foo") .uncounted).registry

/-- Scenario after the re-registration `register(0x1000, "Bar", Uncounted)`. -/
def tclhScenarioReg2 : TclhPointerRegistry :=
  (TclhPointerRegister tclhScenarioReg1 4096 (some "Bar") .uncounted).registry

/-- Scenario after `unregister(0x1000, "Bar")`. -/
def tclhScenarioReg3 : TclhPointerRegistry :=
  (Tclh_PointerUnregisterTagged tclhScenarioReg2 4096 (some "Bar")).2

/-- Registry with one counted entry (count 3) tagged `T` at address 7, used
to witness the counted-increment theorem. -/
def c5WitReg : TclhPointerRegistry := ⟨[(7, ⟨some "T", 3⟩)], []⟩

/-- Character class of the digits `%.16llx` actually prints: `0-9` and the
lowercase `a-f`. Used to state the shape of the codec's output. -/
def isLowerHexDigitChar (c : Char) : Bool :=
  ('0' ≤ c && c ≤ '9') || ('a' ≤ c && c ≤ 'f')

/-- Registry whose single entry at address 5 is a counted record saturated at
`TCLH_POINTER_NREFS_MAX` while still carrying the tag `X` — the state reached
from `c6CexPre` by one more compatible counted registration. -/
def c6CexReg : TclhPointerRegistry :=
  ⟨[(5, ⟨some "X", TCLH_POINTER_NREFS_MAX⟩)], []⟩

/-- Registry whose single entry at address 5 is a counted record tagged `X`
with count `TCLH_POINTER_NREFS_MAX - 1`, one compatible counted registration
away from saturation. -/
def c6CexPre : TclhPointerRegistry :=
  ⟨[(5, ⟨some "X", TCLH_POINTER_NREFS_MAX - 1⟩)], []⟩

theorem alistLookup_insert_self {α β : Type} [DecidableEq α]
    (l : List (α × β)) (k : α) (v : β) :
    alistLookup (alistInsert l k v) k = some v := by
  induction l with
  | nil => simp [alistInsert, alistLookup]
  | cons hd tl ih =>
    obtain ⟨k', v'⟩ := hd
    by_cases h : k' = k
    · simp [alistInsert, alistLookup, h]
    · simp [alistInsert, alistLookup, h, ih]

theorem alistLookup_insert_ne {α β : Type} [DecidableEq α]
    (l : List (α × β)) (k k' : α) (v : β) (h : k ≠ k') :
    alistLookup (alistInsert l k v) k' = alistLookup l k' := by
  induction l with
  | nil => simp [alistInsert, alistLookup, h]
  | cons hd tl ih =>
    obtain ⟨k0, v0⟩ := hd
    by_cases h0 : k0 = k
    · subst h0
      simp [alistInsert, alistLookup, h]
    · simp only [alistInsert, if_neg h0, alistLookup]
      by_cases h1 : k0 = k'
      · simp [h1]
      · simp [h1, ih]

theorem alistLookup_eq_none_of_not_mem_keys {α β : Type} [DecidableEq α]
    (l : List (α × β)) (k : α) (h : k ∉ l.map Prod.fst) :
    alistLookup l k = none := by
  induction l with
  | nil => rfl
  | cons hd tl ih =>
    obtain ⟨k', v'⟩ := hd
    simp only [List.map_cons, List.mem_cons] at h
    push_neg at h
    have hne : k' ≠ k := fun hh => h.1 hh.symm
    simp [alistLookup, hne, ih h.2]

theorem alistLookup_remove_self {α β : Type} [DecidableEq α]
    (l : List (α × β)) (k : α) (h : (l.map Prod.fst).Nodup) :
    alistLookup (alistRemove l k) k = none := by
  induction l with
  | nil => rfl
  | cons hd tl ih =>
    obtain ⟨k', v'⟩ := hd
    simp only [List.map_cons, List.nodup_cons] at h
    by_cases h0 : k' = k
    · subst h0
      simp only [alistRemove, if_pos rfl]
      exact alistLookup_eq_none_of_not_mem_keys tl k' h.1
    · simp [alistRemove, h0, alistLookup, ih h.2]

theorem alistInsert_mem {α β : Type} [DecidableEq α]
    {l : List (α × β)} {k : α} {v : β} {x : α × β}
    (h : x ∈ alistInsert l k v) : x = (k, v) ∨ x ∈ l := by
  induction l with
  | nil =>
    simp [alistInsert] at h
    simp [h]
  | cons hd tl ih =>
    obtain ⟨k', v'⟩ := hd
    by_cases h0 : k' = k
    · simp only [alistInsert, if_pos h0, List.mem_cons] at h
      rcases h with h | h
      · exact Or.inl h
      · exact Or.inr (List.mem_cons_of_mem _ h)
    · simp only [alistInsert, if_neg h0, List.mem_cons] at h
      rcases h with h | h
      · exact Or.inr (by simp [h])
      · rcases ih h with h' | h'
        · exact Or.inl h'
        · exact Or.inr (List.mem_cons_of_mem _ h')

theorem alistRemove_mem {α β : Type} [DecidableEq α]
    {l : List (α × β)} {k : α} {x : α × β}
    (h : x ∈ alistRemove l k) : x ∈ l := by
  induction l with
  | nil =>
    simp [alistRemove] at h
  | cons hd tl ih =>
    obtain ⟨k', v'⟩ := hd
    by_cases h0 : k' = k
    · simp only [alistRemove, if_pos h0] at h
      exact List.mem_cons_of_mem _ h
    · simp only [alistRemove, if_neg h0, List.mem_cons] at h
      rcases h with h | h
      · simp [h]
      · exact List.mem_cons_of_mem _ (ih h)

theorem alistLookup_mem {α β : Type} [DecidableEq α]
    {l : List (α × β)} {k : α} {v : β}
    (h : alistLookup l k = some v) : (k, v) ∈ l := by
  induction l with
  | nil => simp [alistLookup] at h
  | cons hd tl ih =>
    obtain ⟨k', v'⟩ := hd
    by_cases h0 : k' = k
    · subst h0
      simp only [alistLookup] at h
      rw [if_pos trivial, Option.some_inj] at h
      subst h
      simp
    · simp only [alistLookup, if_neg h0] at h
      exact List.mem_cons_of_mem _ (ih h)

theorem alistInsert_keys_nodup {α β : Type} [DecidableEq α]
    (l : List (α × β)) (k : α) (v : β) (h : (l.map Prod.fst).Nodup) :
    ((alistInsert l k v).map Prod.fst).Nodup := by
  induction l with
  | nil => simp [alistInsert]
  | cons hd tl ih =>
    obtain ⟨k', v'⟩ := hd
    simp only [List.map_cons, List.nodup_cons] at h
    by_cases h0 : k' = k
    · subst h0
      rw [show alistInsert ((k', v') :: tl) k' v = (k', v) :: tl from by
        simp [alistInsert]]
      simp only [List.map_cons, List.nodup_cons]
      exact ⟨h.1, h.2⟩
    · simp only [alistInsert, if_neg h0, List.map_cons, List.nodup_cons]
      refine ⟨?_, ih h.2⟩
      intro hmem
      rcases List.mem_map.mp hmem with ⟨x, hx, hfst⟩
      rcases alistInsert_mem hx with h' | h'
      · exact h0 (by rw [← hfst, h'])
      · exact h.1 (hfst ▸ List.mem_map_of_mem Prod.fst h')

theorem PointerTypeMatchesExpected_expected_none (t : Tclh_PointerTypeTag) :
    PointerTypeMatchesExpected t none = true := by
  simp [PointerTypeMatchesExpected]

theorem PointerTypeMatchesExpected_some_some (a b : String) :
    PointerTypeMatchesExpected (some a) (some b) = decide (a = b) := by
  by_cases h : a = b <;> simp [PointerTypeMatchesExpected, h]

theorem PointerTagsSame_some_some (a b : String) :
    PointerTagsSame (some a) (some b) = decide (a = b) := by
  by_cases h : a = b <;> simp [PointerTagsSame, h]

theorem PointerTypeCompatible_expected_none (registryP : TclhPointerRegistry)
    (t : Tclh_PointerTypeTag) :
    PointerTypeCompatible registryP t none = true := by
  simp [PointerTypeCompatible, PointerTypeMatchesExpected_expected_none]

theorem PointerTypeCompatibleLoop_eq_ancestorLoop
    (castables : List (String × String)) (fuel : Nat) :
    ∀ (t b : String),
      PointerTypeCompatibleLoop castables fuel t (some b)
        = PointerTagIsAncestorLoop castables fuel t (some b) := by
  induction fuel with
  | zero => intro t b; rfl
  | succ n ih =>
    intro t b
    simp only [PointerTypeCompatibleLoop, PointerTagIsAncestorLoop]
    cases alistLookup castables t with
    | none => rfl
    | some s =>
      simp only [PointerTypeMatchesExpected_some_some, PointerTagsSame_some_some]
      by_cases h : s = b
      · simp [h]
      · simp [h, ih s b]

theorem PointerTypeCompatible_iff_relation (registryP : TclhPointerRegistry)
    (tag expected : Tclh_PointerTypeTag) :
    PointerTypeCompatible registryP tag expected = true ↔
      (PointerTagCompare registryP tag expected = .equal ∨
       PointerTagCompare registryP tag expected = .implicitlyCastable) := by
  cases expected with
  | none =>
    cases tag with
    | none =>
      simp [PointerTypeCompatible_expected_none, PointerTagCompare]
    | some t =>
      simp [PointerTypeCompatible_expected_none, PointerTagCompare]
  | some e =>
    cases tag with
    | none =>
      simp [PointerTypeCompatible, PointerTypeMatchesExpected, PointerTagCompare]
    | some t =>
      by_cases h : t = e
      · subst h
        simp [PointerTypeCompatible, PointerTypeMatchesExpected_some_some,
          PointerTagCompare]
      · have hne : (some t : Tclh_PointerTypeTag) ≠ some e := by simp [h]
        have hcompat : PointerTypeCompatible registryP (some t) (some e)
            = PointerTagIsAncestorLoop registryP.castables 10 t (some e) := by
          simp [PointerTypeCompatible, PointerTypeMatchesExpected_some_some, h,
            PointerTypeCompatibleLoop_eq_ancestorLoop]
        have hcmp : PointerTagCompare registryP (some t) (some e)
            = (if PointerTagIsAncestor registryP (some t) (some e) = true then
                 Tclh_PointerTagRelation.implicitlyCastable
               else if PointerTagIsAncestor registryP (some e) (some t) = true then
                 Tclh_PointerTagRelation.explicitlyCastable
               else Tclh_PointerTagRelation.unrelated) := by
          simp [PointerTagCompare, hne, PointerTagsSame_some_some, h]
        rw [hcompat, hcmp]
        simp only [PointerTagIsAncestor]
        by_cases ha : PointerTagIsAncestorLoop registryP.castables 10 t (some e) = true
        · simp [ha]
        · rw [Bool.not_eq_true] at ha
          simp only [ha]
          by_cases hb : PointerTagIsAncestorLoop registryP.castables 10 e (some t) = true
          · simp [hb]
          · rw [Bool.not_eq_true] at hb
            simp [hb]

theorem TclhPointerRegister_null (registryP : TclhPointerRegistry)
    (tag : Tclh_PointerTypeTag) (registration : Tclh_PointerRegistrationType) :
    TclhPointerRegister registryP 0 tag registration
      = ⟨.errNullPointer, none, registryP⟩ := by
  unfold TclhPointerRegister
  simp

theorem TclhPointerRegister_new (registryP : TclhPointerRegistry)
    (pointer : Nat) (tag : Tclh_PointerTypeTag)
    (registration : Tclh_PointerRegistrationType)
    (h0 : pointer ≠ 0) (hl : alistLookup registryP.pointers pointer = none) :
    TclhPointerRegister registryP pointer tag registration
      = ⟨.ok, some (pointer, tag),
          ⟨alistInsert registryP.pointers pointer
            ⟨if registration = .pinned then none else tag,
              match registration with
              | .uncounted => -1
              | .counted => 1
              | .pinned => TCLH_POINTER_NREFS_MAX⟩,
            registryP.castables⟩⟩ := by
  unfold TclhPointerRegister
  simp [h0, hl, Tclh_PointerWrap]

theorem TclhPointerRegister_pinnedEntry (registryP : TclhPointerRegistry)
    (pointer : Nat) (tag : Tclh_PointerTypeTag)
    (registration : Tclh_PointerRegistrationType) (ptrRecP : TclhPointerRecord)
    (h0 : pointer ≠ 0)
    (hl : alistLookup registryP.pointers pointer = some ptrRecP)
    (hmax : ptrRecP.nRefs = TCLH_POINTER_NREFS_MAX) :
    TclhPointerRegister registryP pointer tag registration
      = ⟨.ok, some (pointer, tag), registryP⟩ := by
  unfold TclhPointerRegister
  simp [h0, hl, hmax, Tclh_PointerWrap]

theorem TclhPointerRegister_repin (registryP : TclhPointerRegistry)
    (pointer : Nat) (tag : Tclh_PointerTypeTag) (ptrRecP : TclhPointerRecord)
    (h0 : pointer ≠ 0)
    (hl : alistLookup registryP.pointers pointer = some ptrRecP)
    (hmax : ptrRecP.nRefs ≠ TCLH_POINTER_NREFS_MAX) :
    TclhPointerRegister registryP pointer tag .pinned
      = ⟨.ok, some (pointer, tag),
          ⟨alistInsert registryP.pointers pointer ⟨none, TCLH_POINTER_NREFS_MAX⟩,
            registryP.castables⟩⟩ := by
  unfold TclhPointerRegister
  simp [h0, hl, hmax, Tclh_PointerWrap]

theorem TclhPointerRegister_dupUncounted (registryP : TclhPointerRegistry)
    (pointer : Nat) (tag : Tclh_PointerTypeTag) (ptrRecP : TclhPointerRecord)
    (h0 : pointer ≠ 0)
    (hl : alistLookup registryP.pointers pointer = some ptrRecP)
    (hmax : ptrRecP.nRefs ≠ TCLH_POINTER_NREFS_MAX)
    (hcompat : PointerTypeCompatible registryP tag ptrRecP.tagObj = true)
    (hneg : ptrRecP.nRefs < 0) :
    TclhPointerRegister registryP pointer tag .uncounted
      = ⟨.ok, some (pointer, tag), registryP⟩ := by
  unfold TclhPointerRegister
  simp [h0, hl, hmax, hcompat, hneg, Tclh_PointerWrap]

theorem TclhPointerRegister_dupCounted (registryP : TclhPointerRegistry)
    (pointer : Nat) (tag : Tclh_PointerTypeTag) (ptrRecP : TclhPointerRecord)
    (h0 : pointer ≠ 0)
    (hl : alistLookup registryP.pointers pointer = some ptrRecP)
    (hmax : ptrRecP.nRefs ≠ TCLH_POINTER_NREFS_MAX)
    (hcompat : PointerTypeCompatible registryP tag ptrRecP.tagObj = true)
    (hpos : ptrRecP.nRefs > 0) :
    TclhPointerRegister registryP pointer tag .counted
      = ⟨.ok, some (pointer, tag),
          ⟨alistInsert registryP.pointers pointer
            ⟨ptrRecP.tagObj, ptrRecP.nRefs + 1⟩,
            registryP.castables⟩⟩ := by
  unfold TclhPointerRegister
  simp [h0, hl, hmax, hcompat, hpos, Tclh_PointerWrap]

theorem TclhPointerRegister_overwrite (registryP : TclhPointerRegistry)
    (pointer : Nat) (tag : Tclh_PointerTypeTag)
    (registration : Tclh_PointerRegistrationType) (ptrRecP : TclhPointerRecord)
    (h0 : pointer ≠ 0)
    (hl : alistLookup registryP.pointers pointer = some ptrRecP)
    (hmax : ptrRecP.nRefs ≠ TCLH_POINTER_NREFS_MAX)
    (hpin : registration ≠ .pinned)
    (h1 : ¬(PointerTypeCompatible registryP tag ptrRecP.tagObj = true
        ∧ registration = .uncounted ∧ ptrRecP.nRefs < 0))
    (h2 : ¬(PointerTypeCompatible registryP tag ptrRecP.tagObj = true
        ∧ registration = .counted ∧ ptrRecP.nRefs > 0)) :
    TclhPointerRegister registryP pointer tag registration
      = ⟨.ok, some (pointer, tag),
          ⟨alistInsert registryP.pointers pointer
            ⟨tag, if registration = .uncounted then -1 else 1⟩,
            registryP.castables⟩⟩ := by
  unfold TclhPointerRegister
  rw [if_neg h0, hl]
  simp only [hmax, if_neg hpin, if_neg h1, if_neg h2, if_false, Tclh_PointerWrap]

theorem PointerVOU_missing_invalidate (registryP : TclhPointerRegistry)
    (pointer : Nat) (tag : Tclh_PointerTypeTag)
    (hl : alistLookup registryP.pointers pointer = none) :
    PointerVerifyOrUnregisterTagged registryP pointer tag TCLH_POINTER_NREFS_MAX
      = (.ok, registryP) := by
  unfold PointerVerifyOrUnregisterTagged
  simp [hl]

theorem PointerVOU_missing (registryP : TclhPointerRegistry)
    (pointer : Nat) (tag : Tclh_PointerTypeTag) (unrefCount : Int)
    (hl : alistLookup registryP.pointers pointer = none)
    (hu : unrefCount ≠ TCLH_POINTER_NREFS_MAX) :
    PointerVerifyOrUnregisterTagged registryP pointer tag unrefCount
      = (.errNotRegistered, registryP) := by
  unfold PointerVerifyOrUnregisterTagged
  simp [hl, hu]

theorem PointerVOU_mismatch (registryP : TclhPointerRegistry)
    (pointer : Nat) (tag : Tclh_PointerTypeTag) (unrefCount : Int)
    (ptrRecP : TclhPointerRecord)
    (hl : alistLookup registryP.pointers pointer = some ptrRecP)
    (hc : PointerTypeCompatible registryP tag ptrRecP.tagObj = false) :
    PointerVerifyOrUnregisterTagged registryP pointer tag unrefCount
      = (.errTypeMismatch, registryP) := by
  unfold PointerVerifyOrUnregisterTagged
  simp [hl, hc]

theorem PointerVOU_verify (registryP : TclhPointerRegistry)
    (pointer : Nat) (tag : Tclh_PointerTypeTag) (ptrRecP : TclhPointerRecord)
    (hl : alistLookup registryP.pointers pointer = some ptrRecP)
    (hc : PointerTypeCompatible registryP tag ptrRecP.tagObj = true) :
    PointerVerifyOrUnregisterTagged registryP pointer tag 0
      = (.ok, registryP) := by
  unfold PointerVerifyOrUnregisterTagged
  simp [hl, hc]

theorem PointerVOU_pinned_noop (registryP : TclhPointerRegistry)
    (pointer : Nat) (tag : Tclh_PointerTypeTag) (unrefCount : Int)
    (ptrRecP : TclhPointerRecord)
    (hl : alistLookup registryP.pointers pointer = some ptrRecP)
    (hc : PointerTypeCompatible registryP tag ptrRecP.tagObj = true)
    (hmax : ptrRecP.nRefs = TCLH_POINTER_NREFS_MAX)
    (hu0 : unrefCount ≠ 0) (huM : unrefCount ≠ TCLH_POINTER_NREFS_MAX) :
    PointerVerifyOrUnregisterTagged registryP pointer tag unrefCount
      = (.ok, registryP) := by
  unfold PointerVerifyOrUnregisterTagged
  simp [hl, hc, hmax, hu0, huM]

theorem PointerVOU_pinned_invalidate (registryP : TclhPointerRegistry)
    (pointer : Nat) (tag : Tclh_PointerTypeTag) (ptrRecP : TclhPointerRecord)
    (hl : alistLookup registryP.pointers pointer = some ptrRecP)
    (hc : PointerTypeCompatible registryP tag ptrRecP.tagObj = true)
    (hmax : ptrRecP.nRefs = TCLH_POINTER_NREFS_MAX) :
    PointerVerifyOrUnregisterTagged registryP pointer tag TCLH_POINTER_NREFS_MAX
      = (.ok, ⟨alistRemove registryP.pointers pointer, registryP.castables⟩) := by
  unfold PointerVerifyOrUnregisterTagged
  simp [hl, hc, hmax, TCLH_POINTER_NREFS_MAX]

theorem PointerVOU_remove (registryP : TclhPointerRegistry)
    (pointer : Nat) (tag : Tclh_PointerTypeTag) (unrefCount : Int)
    (ptrRecP : TclhPointerRecord)
    (hl : alistLookup registryP.pointers pointer = some ptrRecP)
    (hc : PointerTypeCompatible registryP tag ptrRecP.tagObj = true)
    (hmax : ptrRecP.nRefs ≠ TCLH_POINTER_NREFS_MAX)
    (hu0 : unrefCount ≠ 0) (hle : ptrRecP.nRefs ≤ unrefCount) :
    PointerVerifyOrUnregisterTagged registryP pointer tag unrefCount
      = (.ok, ⟨alistRemove registryP.pointers pointer, registryP.castables⟩) := by
  unfold PointerVerifyOrUnregisterTagged
  simp [hl, hc, hmax, hu0, hle]

theorem PointerVOU_decrement (registryP : TclhPointerRegistry)
    (pointer : Nat) (tag : Tclh_PointerTypeTag) (unrefCount : Int)
    (ptrRecP : TclhPointerRecord)
    (hl : alistLookup registryP.pointers pointer = some ptrRecP)
    (hc : PointerTypeCompatible registryP tag ptrRecP.tagObj = true)
    (hmax : ptrRecP.nRefs ≠ TCLH_POINTER_NREFS_MAX)
    (hu0 : unrefCount ≠ 0) (hgt : unrefCount < ptrRecP.nRefs) :
    PointerVerifyOrUnregisterTagged registryP pointer tag unrefCount
      = (.ok, ⟨alistInsert registryP.pointers pointer
          ⟨ptrRecP.tagObj, ptrRecP.nRefs - unrefCount⟩,
          registryP.castables⟩) := by
  unfold PointerVerifyOrUnregisterTagged
  have hle : ¬ptrRecP.nRefs ≤ unrefCount := by omega
  simp [hl, hc, hmax, hu0, hle]

theorem Tclh_PointerUnregister_pinned (registryP : TclhPointerRegistry)
    (pointer : Nat) (ptrRecP : TclhPointerRecord)
    (hl : alistLookup registryP.pointers pointer = some ptrRecP)
    (hmax : ptrRecP.nRefs = TCLH_POINTER_NREFS_MAX) :
    Tclh_PointerUnregister registryP pointer = (.ok, registryP) := by
  unfold Tclh_PointerUnregister
  simp [hl, hmax]

theorem Tclh_PointerUnregister_missing (registryP : TclhPointerRegistry)
    (pointer : Nat)
    (hl : alistLookup registryP.pointers pointer = none) :
    Tclh_PointerUnregister registryP pointer = (.errNotRegistered, registryP) := by
  unfold Tclh_PointerUnregister
  simp [hl]

theorem Tclh_PointerUnregister_remove (registryP : TclhPointerRegistry)
    (pointer : Nat) (ptrRecP : TclhPointerRecord)
    (hl : alistLookup registryP.pointers pointer = some ptrRecP)
    (hmax : ptrRecP.nRefs ≠ TCLH_POINTER_NREFS_MAX)
    (hle : ptrRecP.nRefs ≤ 1) :
    Tclh_PointerUnregister registryP pointer
      = (.ok, ⟨alistRemove registryP.pointers pointer, registryP.castables⟩) := by
  unfold Tclh_PointerUnregister
  simp [hl, hmax, hle]

theorem Tclh_PointerUnregister_decrement (registryP : TclhPointerRegistry)
    (pointer : Nat) (ptrRecP : TclhPointerRecord)
    (hl : alistLookup registryP.pointers pointer = some ptrRecP)
    (hmax : ptrRecP.nRefs ≠ TCLH_POINTER_NREFS_MAX)
    (hgt : 1 < ptrRecP.nRefs) :
    Tclh_PointerUnregister registryP pointer
      = (.ok, ⟨alistInsert registryP.pointers pointer
          ⟨ptrRecP.tagObj, ptrRecP.nRefs - 1⟩,
          registryP.castables⟩) := by
  unfold Tclh_PointerUnregister
  have hle : ¬ptrRecP.nRefs ≤ 1 := by omega
  simp [hl, hmax, hle]

theorem PointerTagIsAncestorLoop_iff_iterSuper
    (castables : List (String × String)) :
    ∀ (fuel : Nat) (t b : String),
      PointerTagIsAncestorLoop castables fuel t (some b) = true ↔
        ∃ k, 1 ≤ k ∧ k ≤ fuel ∧ iterSuper castables k t = some b := by
  intro fuel
  induction fuel with
  | zero =>
    intro t b
    constructor
    · intro h
      simp [PointerTagIsAncestorLoop] at h
    · rintro ⟨k, hk1, hk2, _⟩
      omega
  | succ n ih =>
    intro t b
    cases hl : alistLookup castables t with
    | none =>
      constructor
      · intro h
        simp [PointerTagIsAncestorLoop, hl] at h
      · rintro ⟨k, hk1, hk2, hit⟩
        obtain ⟨j, rfl⟩ : ∃ j, k = j + 1 := ⟨k - 1, by omega⟩
        simp [iterSuper, hl] at hit
    | some s =>
      have hloop : PointerTagIsAncestorLoop castables (n + 1) t (some b)
          = (if s = b then true else PointerTagIsAncestorLoop castables n s (some b)) := by
        simp [PointerTagIsAncestorLoop, hl, PointerTagsSame_some_some]
      have hstep : ∀ j, iterSuper castables (j + 1) t = iterSuper castables j s := by
        intro j
        simp [iterSuper, hl]
      constructor
      · intro h
        rw [hloop] at h
        by_cases hs : s = b
        · exact ⟨1, le_refl 1, by omega, by rw [hstep 0]; simp [iterSuper, hs]⟩
        · rw [if_neg hs] at h
          obtain ⟨k, hk1, hk2, hit⟩ := (ih s b).mp h
          exact ⟨k + 1, by omega, by omega, by rw [hstep k]; exact hit⟩
      · rintro ⟨k, hk1, hk2, hit⟩
        obtain ⟨j, rfl⟩ : ∃ j, k = j + 1 := ⟨k - 1, by omega⟩
        rw [hstep j] at hit
        rw [hloop]
        by_cases hs : s = b
        · simp [hs]
        · rw [if_neg hs]
          apply (ih s b).mpr
          rcases Nat.eq_zero_or_pos j with hj | hj
          · subst hj
            simp only [iterSuper, Option.some_inj] at hit
            exact absurd hit hs
          · exact ⟨j, hj, by omega, hit⟩

theorem WfCounts_TclhPointerRegister (registryP : TclhPointerRegistry)
    (pointer : Nat) (tag : Tclh_PointerTypeTag)
    (registration : Tclh_PointerRegistrationType)
    (h : WfCounts registryP) :
    WfCounts (TclhPointerRegister registryP pointer tag registration).registry := by
  by_cases h0 : pointer = 0
  · subst h0
    rw [TclhPointerRegister_null]
    exact h
  · cases hl : alistLookup registryP.pointers pointer with
    | none =>
      rw [TclhPointerRegister_new registryP pointer tag registration h0 hl]
      intro q s hmem
      rcases alistInsert_mem hmem with he | hm
      · injection he with he1 he2
        subst he2
        cases registration with
        | uncounted => exact Or.inl rfl
        | counted => exact Or.inr ⟨by norm_num, by norm_num [TCLH_POINTER_NREFS_MAX]⟩
        | pinned =>
          exact Or.inr ⟨by norm_num [TCLH_POINTER_NREFS_MAX], le_refl _⟩
      · exact h q s hm
    | some ptrRecP =>
      have hold := h pointer ptrRecP (alistLookup_mem hl)
      by_cases hmax : ptrRecP.nRefs = TCLH_POINTER_NREFS_MAX
      · rw [TclhPointerRegister_pinnedEntry registryP pointer tag registration
          ptrRecP h0 hl hmax]
        exact h
      · cases registration with
        | pinned =>
          rw [TclhPointerRegister_repin registryP pointer tag ptrRecP h0 hl hmax]
          intro q s hmem
          rcases alistInsert_mem hmem with he | hm
          · injection he with he1 he2
            subst he2
            simp [TCLH_POINTER_NREFS_MAX]
          · exact h q s hm
        | uncounted =>
          by_cases hdup : PointerTypeCompatible registryP tag ptrRecP.tagObj = true
              ∧ ptrRecP.nRefs < 0
          · rw [TclhPointerRegister_dupUncounted registryP pointer tag ptrRecP
              h0 hl hmax hdup.1 hdup.2]
            exact h
          · rw [TclhPointerRegister_overwrite registryP pointer tag .uncounted
              ptrRecP h0 hl hmax (by simp)
              (by intro hx; exact hdup ⟨hx.1, hx.2.2⟩)
              (by intro hx; exact absurd hx.2.1 (by simp))]
            intro q s hmem
            rcases alistInsert_mem hmem with he | hm
            · injection he with he1 he2
              subst he2
              simp
            · exact h q s hm
        | counted =>
          by_cases hdup : PointerTypeCompatible registryP tag ptrRecP.tagObj = true
              ∧ ptrRecP.nRefs > 0
          · rw [TclhPointerRegister_dupCounted registryP pointer tag ptrRecP
              h0 hl hmax hdup.1 hdup.2]
            intro q s hmem
            rcases alistInsert_mem hmem with he | hm
            · injection he with he1 he2
              subst he2
              right
              simp only
              refine ⟨by omega, ?_⟩
              have := hdup.2
              rw [TCLH_POINTER_NREFS_MAX] at hmax hold ⊢
              omega
            · exact h q s hm
          · rw [TclhPointerRegister_overwrite registryP pointer tag .counted
              ptrRecP h0 hl hmax (by simp)
              (by intro hx; exact absurd hx.2.1 (by simp))
              (by intro hx; exact hdup ⟨hx.1, hx.2.2⟩)]
            intro q s hmem
            rcases alistInsert_mem hmem with he | hm
            · injection he with he1 he2
              subst he2
              simp [TCLH_POINTER_NREFS_MAX]
            · exact h q s hm

theorem WfCounts_PointerVerifyOrUnregisterTagged (registryP : TclhPointerRegistry)
    (pointer : Nat) (tag : Tclh_PointerTypeTag) (unrefCount : Int)
    (hc : 0 ≤ unrefCount) (h : WfCounts registryP) :
    WfCounts (PointerVerifyOrUnregisterTagged registryP pointer tag unrefCount).2 := by
  cases hl : alistLookup registryP.pointers pointer with
  | none =>
    by_cases hu : unrefCount = TCLH_POINTER_NREFS_MAX
    · subst hu
      rw [PointerVOU_missing_invalidate registryP pointer tag hl]
      exact h
    · rw [PointerVOU_missing registryP pointer tag unrefCount hl hu]
      exact h
  | some ptrRecP =>
    have hold := h pointer ptrRecP (alistLookup_mem hl)
    by_cases hcompat : PointerTypeCompatible registryP tag ptrRecP.tagObj = false
    · rw [PointerVOU_mismatch registryP pointer tag unrefCount ptrRecP hl hcompat]
      exact h
    · have hcompat' : PointerTypeCompatible registryP tag ptrRecP.tagObj = true := by
        cases hx : PointerTypeCompatible registryP tag ptrRecP.tagObj with
        | false => exact absurd hx hcompat
        | true => rfl
      by_cases hz : unrefCount = 0
      · subst hz
        rw [PointerVOU_verify registryP pointer tag ptrRecP hl hcompat']
        exact h
      · by_cases hmax : ptrRecP.nRefs = TCLH_POINTER_NREFS_MAX
        · by_cases humax : unrefCount = TCLH_POINTER_NREFS_MAX
          · subst humax
            rw [PointerVOU_pinned_invalidate registryP pointer tag ptrRecP hl
              hcompat' hmax]
            intro q s hmem
            exact h q s (alistRemove_mem hmem)
          · rw [PointerVOU_pinned_noop registryP pointer tag unrefCount ptrRecP
              hl hcompat' hmax hz humax]
            exact h
        · by_cases hle : ptrRecP.nRefs ≤ unrefCount
          · rw [PointerVOU_remove registryP pointer tag unrefCount ptrRecP hl
              hcompat' hmax hz hle]
            intro q s hmem
            exact h q s (alistRemove_mem hmem)
          · rw [PointerVOU_decrement registryP pointer tag unrefCount ptrRecP hl
              hcompat' hmax hz (by omega)]
            intro q s hmem
            rcases alistInsert_mem hmem with he | hm
            · injection he with he1 he2
              subst he2
              right
              simp only
              rw [TCLH_POINTER_NREFS_MAX] at hold ⊢
              omega
            · exact h q s hm

theorem WfCounts_Tclh_PointerUnregister (registryP : TclhPointerRegistry)
    (pointer : Nat) (h : WfCounts registryP) :
    WfCounts (Tclh_PointerUnregister registryP pointer).2 := by
  cases hl : alistLookup registryP.pointers pointer with
  | none =>
    rw [Tclh_PointerUnregister_missing registryP pointer hl]
    exact h
  | some ptrRecP =>
    have hold := h pointer ptrRecP (alistLookup_mem hl)
    by_cases hmax : ptrRecP.nRefs = TCLH_POINTER_NREFS_MAX
    · rw [Tclh_PointerUnregister_pinned registryP pointer ptrRecP hl hmax]
      exact h
    · by_cases hle : ptrRecP.nRefs ≤ 1
      · rw [Tclh_PointerUnregister_remove registryP pointer ptrRecP hl hmax hle]
        intro q s hmem
        exact h q s (alistRemove_mem hmem)
      · rw [Tclh_PointerUnregister_decrement registryP pointer ptrRecP hl hmax
          (by omega)]
        intro q s hmem
        rcases alistInsert_mem hmem with he | hm
        · injection he with he1 he2
          subst he2
          right
          simp only
          rw [TCLH_POINTER_NREFS_MAX] at hold hmax ⊢
          omega
        · exact h q s hm

theorem stringData_append (a b : String) : (a ++ b).data = a.data ++ b.data := rfl

theorem list_takeWhile_all {α : Type} (p : α → Bool) :
    ∀ (l : List α), (∀ c ∈ l, p c = true) → l.takeWhile p = l := by
  intro l
  induction l with
  | nil => intro _; rfl
  | cons c cs ih =>
    intro h
    have hc := h c (by simp)
    simp [List.takeWhile_cons, hc, ih (fun d hd => h d (by simp [hd]))]

theorem hexCharVal_hexChar (d : Nat) (h : d < 16) :
    hexCharVal (hexChar d) = d := by
  interval_cases d <;> decide

theorem isHexDigitChar_hexChar (d : Nat) (h : d < 16) :
    isHexDigitChar (hexChar d) = true := by
  interval_cases d <;> decide

theorem hexChar_ne_nul (d : Nat) (h : d < 16) : hexChar d ≠ Char.ofNat 0 := by
  interval_cases d <;> decide

theorem padHexDigits_ne_nul (n : Nat) :
    ∀ (k : Nat), ∀ c ∈ padHexDigits k n, c ≠ Char.ofNat 0 := by
  intro k
  induction k with
  | zero =>
    intro c hc
    simp [padHexDigits] at hc
  | succ j ih =>
    intro c hc
    simp only [padHexDigits, List.mem_cons] at hc
    rcases hc with hc | hc
    · subst hc
      exact hexChar_ne_nul _ (Nat.mod_lt _ (by norm_num))
    · exact ih c hc

theorem isLowerHexDigitChar_hexChar (d : Nat) (h : d < 16) :
    isLowerHexDigitChar (hexChar d) = true := by
  interval_cases d <;> decide

theorem padHexDigits_length (n : Nat) :
    ∀ (k : Nat), (padHexDigits k n).length = k := by
  intro k
  induction k with
  | zero => rfl
  | succ j ih => simp [padHexDigits, ih]

theorem padHexDigits_lower (n : Nat) :
    ∀ (k : Nat), ∀ c ∈ padHexDigits k n, isLowerHexDigitChar c = true := by
  intro k
  induction k with
  | zero =>
    intro c hc
    simp [padHexDigits] at hc
  | succ j ih =>
    intro c hc
    simp only [padHexDigits, List.mem_cons] at hc
    rcases hc with hc | hc
    · subst hc
      exact isLowerHexDigitChar_hexChar _ (Nat.mod_lt _ (by norm_num))
    · exact ih c hc

theorem takeHexDigits_padHexDigits (n : Nat) :
    ∀ (k : Nat) (acc : Nat) (rest : List Char),
      (∀ c l, rest = c :: l → isHexDigitChar c = false) →
      takeHexDigits (padHexDigits k n ++ rest) acc
        = (acc * 16 ^ k + n % 16 ^ k, rest) := by
  intro k
  induction k with
  | zero =>
    intro acc rest hrest
    simp only [padHexDigits, List.nil_append, pow_zero, Nat.mod_one, mul_one,
      Nat.add_zero]
    cases rest with
    | nil => rfl
    | cons c l =>
      have hcl := hrest c l rfl
      simp [takeHexDigits, hcl]
  | succ j ih =>
    intro acc rest hrest
    have hd : n / 16 ^ j % 16 < 16 := Nat.mod_lt _ (by norm_num)
    simp only [padHexDigits, List.cons_append, takeHexDigits,
      isHexDigitChar_hexChar _ hd, if_true, hexCharVal_hexChar _ hd,
      List.append_eq]
    rw [ih (16 * acc + n / 16 ^ j % 16) rest hrest]
    have hmod : n % 16 ^ (j + 1) = n % 16 ^ j + 16 ^ j * (n / 16 ^ j % 16) := by
      rw [pow_succ, Nat.mod_mul]
    simp only [Prod.mk.injEq]
    refine ⟨?_, trivial⟩
    rw [hmod, pow_succ]
    ring

theorem UpdatePointerTypeString_data (addr : Nat) (tag : Tclh_PointerTypeTag) :
    (UpdatePointerTypeString (Tclh_PointerWrap addr tag)).data
      = '0' :: 'x' :: (padHexDigits 16 (addr % 2 ^ 64)
          ++ '^' :: (match tag with | none => "" | some t => t).data) := by
  cases tag <;>
    simp [UpdatePointerTypeString, Tclh_PointerWrap, TclhPrintAddress,
      stringData_append, String.mk]

theorem cStringView_format (addr : Nat) (tag : Tclh_PointerTypeTag)
    (htag : ∀ c ∈ (match tag with | none => "" | some t => t).data,
      c ≠ Char.ofNat 0) :
    cStringView (UpdatePointerTypeString (Tclh_PointerWrap addr tag))
      = (UpdatePointerTypeString (Tclh_PointerWrap addr tag)).data := by
  unfold cStringView
  apply list_takeWhile_all
  intro c hc
  rw [UpdatePointerTypeString_data] at hc
  simp only [List.mem_cons, List.mem_append] at hc
  rcases hc with hc | hc | hc | hc | hc
  · subst hc
    decide
  · subst hc
    decide
  · simp only [decide_eq_true_eq]
    exact padHexDigits_ne_nul _ 16 c hc
  · subst hc
    decide
  · simp only [decide_eq_true_eq]
    exact htag c hc

theorem padHexDigits16_cons (n : Nat) :
    padHexDigits 16 n = hexChar (n / 16 ^ 15 % 16) :: padHexDigits 15 n := rfl

theorem SetPointerFromAnyList_scan16 (a : Nat) (tagChars : List Char) :
    SetPointerFromAnyList ('0' :: 'x' :: (padHexDigits 16 a ++ '^' :: tagChars))
      = (if tagChars = [] then some ((a % 16 ^ 16) % 2 ^ 64, none)
         else some ((a % 16 ^ 16) % 2 ^ 64, some (String.mk tagChars))) := by
  have hscan : takeHexDigits (padHexDigits 16 a ++ '^' :: tagChars) 0
      = (0 * 16 ^ 16 + a % 16 ^ 16, '^' :: tagChars) := by
    apply takeHexDigits_padHexDigits
    intro c l hcl
    injection hcl with hc hl
    subst hc
    decide
  rw [padHexDigits16_cons] at hscan ⊢
  simp only [List.cons_append]
  simp only [SetPointerFromAnyList]
  rw [if_pos (by exact ⟨by trivial, by trivial⟩)]
  have hhex : isHexDigitChar (hexChar (a / 16 ^ 15 % 16)) = true :=
    isHexDigitChar_hexChar _ (Nat.mod_lt _ (by norm_num))
  simp only [hhex, if_true]
  rw [show (hexChar (a / 16 ^ 15 % 16) :: (padHexDigits 15 a ++ '^' :: tagChars))
      = (hexChar (a / 16 ^ 15 % 16) :: padHexDigits 15 a) ++ '^' :: tagChars from by
    simp]
  rw [hscan]
  simp only [Nat.zero_mul, Nat.zero_add]
  by_cases ht : tagChars = []
  · simp [ht]
  · simp [ht]

/-- C3 (counterexample): the claim fails for the empty-string tag. The handle
(0, tag Tcl_Obj holding the empty string) formats as `0x0000000000000000^`,
which parses back to the NULL-tag handle (0, none); by the library's own
comparison (Tclh_PointerObjCompare) a NULL tag and an empty-string tag object
are distinct, so parse(format(wrap(0, some ""))) differs from (0, some ""). -/
theorem tclh_c3_cex :
    SetPointerFromAny (UpdatePointerTypeString (Tclh_PointerWrap 0 (some "")))
      = some (0, none)
    ∧ (some ((0 : Nat), (none : Tclh_PointerTypeTag)))
        ≠ some ((0 : Nat), (some "" : Tclh_PointerTypeTag)) := by
  exact ⟨by decide, by decide⟩

/-- C3 (amended): parsing the generated string form yields the handle back,
`parse(format(wrap(address, tag))) = (address, tag)`, for every machine-word
address and every tag that is either NULL or a nonempty string without
embedded NUL bytes; an empty-string tag parses back as NULL. Regenerating the
string form is a pure function of the cached (address, tag) pair, hence
byte-identical across calls by construction. -/
theorem tclh_c3_roundtrip_amended (addr : Nat) (tag : Tclh_PointerTypeTag)
    (h1 : addr < 2 ^ 64) (h2 : tagRoundTrippable tag = true) :
    SetPointerFromAny (UpdatePointerTypeString (Tclh_PointerWrap addr tag))
      = some (addr, tag) := by
  have htag : ∀ c ∈ (match tag with | none => "" | some t => t).data,
      c ≠ Char.ofNat 0 := by
    cases tag with
    | none =>
      intro c hc
      simp at hc
    | some s =>
      intro c hc
      simp only [tagRoundTrippable, Bool.and_eq_true, List.all_eq_true] at h2
      have hx := h2.2 c hc
      simpa using hx
  unfold SetPointerFromAny
  rw [cStringView_format addr tag htag, UpdatePointerTypeString_data,
    Nat.mod_eq_of_lt h1, SetPointerFromAnyList_scan16]
  have h1616 : (16 : Nat) ^ 16 = 2 ^ 64 := by norm_num
  rw [h1616, Nat.mod_eq_of_lt h1, Nat.mod_eq_of_lt h1]
  cases tag with
  | none => simp
  | some s =>
    have hne : s.data ≠ [] := by
      simp only [tagRoundTrippable, Bool.and_eq_true] at h2
      intro hx
      rcases h2 with ⟨hempty, _⟩
      rw [Bool.not_eq_true'] at hempty
      rw [hx] at hempty
      simp at hempty
    have hmk : String.mk s.data = s := by
      cases s
      rfl
    simp [hne, hmk]

/-- C3 (witness): the amended round trip at address 0x1000 with tag `Foo`. -/
theorem tclh_c3_roundtrip_amended_witness :
    (4096 < 2 ^ 64) ∧ tagRoundTrippable (some "Foo") = true
    ∧ SetPointerFromAny (UpdatePointerTypeString (Tclh_PointerWrap 4096 (some "Foo")))
        = some (4096, some "Foo") :=
  ⟨by norm_num, by decide,
    tclh_c3_roundtrip_amended 4096 (some "Foo") (by norm_num) (by decide)⟩

/-- C4 (counterexample): the codec never produces the string `NULL`; the
handle with a null address and no tag formats as `0x0000000000000000^`. -/
theorem tclh_c4_cex :
    UpdatePointerTypeString (Tclh_PointerWrap 0 none) = "0x0000000000000000^"
    ∧ ("0x0000000000000000^" : String) ≠ "NULL" := by
  exact ⟨by decide, by decide⟩

/-- C4 (amended): for every handle — every address and tag — the string form
produced by the codec is `0x` followed by exactly 16 hex digits drawn from
`0-9a-f` (the 64-bit address zero-padded, lowercase), then `^`, then the tag
string (empty for a NULL tag); in particular it is never the string `NULL`,
and the null address with no tag formats as `0x0000000000000000^`. Parsing
accepts every such produced form (for tags without embedded NUL bytes), and
it also accepts the literal `NULL` — yielding the null handle — as well as
further non-canonical hex spellings such as `0x0^`, so the set of accepted
inputs is strictly larger than the set of canonical forms. -/
theorem tclh_c4_codec_amended :
    (∀ (addr : Nat) (tag : Tclh_PointerTypeTag),
      (UpdatePointerTypeString (Tclh_PointerWrap addr tag)).data
        = '0' :: 'x' :: (padHexDigits 16 (addr % 2 ^ 64)
            ++ '^' :: (match tag with | none => "" | some t => t).data)
      ∧ (padHexDigits 16 (addr % 2 ^ 64)).length = 16
      ∧ (∀ c ∈ padHexDigits 16 (addr % 2 ^ 64), isLowerHexDigitChar c = true)
      ∧ UpdatePointerTypeString (Tclh_PointerWrap addr tag) ≠ "NULL")
    ∧ (∀ (addr : Nat) (tag : Tclh_PointerTypeTag),
        (∀ c ∈ (match tag with | none => "" | some t => t).data,
          c ≠ Char.ofNat 0) →
        ∃ v, SetPointerFromAny (UpdatePointerTypeString (Tclh_PointerWrap addr tag))
          = some v)
    ∧ UpdatePointerTypeString (Tclh_PointerWrap 0 none) = "0x0000000000000000^"
    ∧ SetPointerFromAny "NULL" = some (0, none)
    ∧ SetPointerFromAny "0x0^" = some (0, none) := by
  refine ⟨?_, ?_, by decide, by decide, by decide⟩
  · intro addr tag
    refine ⟨UpdatePointerTypeString_data addr tag, padHexDigits_length _ 16,
      padHexDigits_lower _ 16, ?_⟩
    intro h
    have hd := congrArg String.data h
    rw [UpdatePointerTypeString_data] at hd
    have hnull : ("NULL" : String).data = ['N', 'U', 'L', 'L'] := rfl
    rw [hnull] at hd
    simp at hd
  · intro addr tag htag
    unfold SetPointerFromAny
    rw [cStringView_format addr tag htag, UpdatePointerTypeString_data,
      SetPointerFromAnyList_scan16]
    by_cases h : (match tag with | none => "" | some t => t).data = []
    · rw [if_pos h]
      exact ⟨_, rfl⟩
    · rw [if_neg h]
      exact ⟨_, rfl⟩

/-- C4 (witness): the amended codec theorem's acceptance clause at address
0x1000 with the NUL-free tag `T4`. -/
theorem tclh_c4_codec_amended_witness :
    (∀ c ∈ ("T4" : String).data, c ≠ Char.ofNat 0)
    ∧ ∃ v, SetPointerFromAny
        (UpdatePointerTypeString (Tclh_PointerWrap 4096 (some "T4"))) = some v :=
  ⟨by decide, tclh_c4_codec_amended.2.1 4096 (some "T4") (by decide)⟩

/-- C1 (counterexample): with a single entry at address 1 registered under
tag `Foo` and no subtag edges, the stored tag is ImplicitlyCastable to a
`none` required tag in the claimed direction (actual = stored -> expected =
t), and the claim says a `none` required tag always matches — yet
`Tclh_PointerVerifyTagged(1, none)` fails with the type-mismatch error. -/
theorem tclh_c1_cex :
    alistLookup c1CexReg.pointers 1 = some ⟨some "Foo", -1⟩
    ∧ PointerTagCompare c1CexReg (some "Foo") none
        = Tclh_PointerTagRelation.implicitlyCastable
    ∧ (Tclh_PointerVerifyTagged c1CexReg 1 none).1 = .errTypeMismatch := by
  exact ⟨by decide, by decide, by decide⟩

/-- C1 (amended): `Tclh_PointerVerifyTagged(p, t)` succeeds iff an entry for
`p` exists and the presented tag `t` is compatible with the entry's stored
tag in the direction actual = t -> expected = stored tag (Equal or
ImplicitlyCastable): a `none` stored tag always matches, while a `none`
required tag matches only an untagged entry. The call never mutates the
registry. -/
theorem tclh_c1_verify_amended (registryP : TclhPointerRegistry) (p : Nat)
    (t : Tclh_PointerTypeTag) :
    ((Tclh_PointerVerifyTagged registryP p t).1 = .ok ↔
      ∃ r, alistLookup registryP.pointers p = some r ∧
        (PointerTagCompare registryP t r.tagObj = .equal ∨
         PointerTagCompare registryP t r.tagObj = .implicitlyCastable))
    ∧ (Tclh_PointerVerifyTagged registryP p t).2 = registryP := by
  unfold Tclh_PointerVerifyTagged
  cases hl : alistLookup registryP.pointers p with
  | none =>
    rw [PointerVOU_missing registryP p t 0 hl
      (by norm_num [TCLH_POINTER_NREFS_MAX])]
    refine ⟨?_, rfl⟩
    constructor
    · intro h
      simp at h
    · rintro ⟨r, hr, _⟩
      simp at hr
  | some r =>
    cases hc : PointerTypeCompatible registryP t r.tagObj with
    | false =>
      rw [PointerVOU_mismatch registryP p t 0 r hl hc]
      refine ⟨?_, rfl⟩
      constructor
      · intro h
        simp at h
      · rintro ⟨r', hr', hrel⟩
        injection hr' with hr'
        subst hr'
        have hcontra := (PointerTypeCompatible_iff_relation registryP t r.tagObj).mpr hrel
        rw [hc] at hcontra
        simp at hcontra
    | true =>
      rw [PointerVOU_verify registryP p t r hl hc]
      refine ⟨?_, rfl⟩
      constructor
      · intro _
        exact ⟨r, rfl, (PointerTypeCompatible_iff_relation registryP t r.tagObj).mp hc⟩
      · intro _
        rfl

/-- C2 (counterexample): `TclhPointerRegister` of address 0x1000 with tag `T`
and Pinned mode stores the NULL tag in the registry but returns the handle
(0x1000, T) wrapped with the tag as passed, so the returned handle's tag is
not the tag actually stored. -/
theorem tclh_c2_cex :
    (TclhPointerRegister ⟨[], []⟩ 4096 (some "T") .pinned).handleObj
      = some (4096, some "T")
    ∧ alistLookup (TclhPointerRegister ⟨[], []⟩ 4096 (some "T") .pinned).registry.pointers 4096
        = some ⟨none, TCLH_POINTER_NREFS_MAX⟩
    ∧ (some "T" : Tclh_PointerTypeTag) ≠ none := by
  exact ⟨by decide, by decide, by decide⟩

/-- C2 (amended): for every non-null address `p`, `TclhPointerRegister(p, t,
m)` succeeds (allocation exhaustion panics and is outside the model) and
returns the handle `(p, t)` carrying the tag as passed — not the stored tag;
when `m` is Pinned and the existing entry (if any) is not already at the
pinned count, the stored tag is forced to `none` regardless of `t`. -/
theorem tclh_c2_register_amended (registryP : TclhPointerRegistry) (p : Nat)
    (t : Tclh_PointerTypeTag) (m : Tclh_PointerRegistrationType)
    (h0 : p ≠ 0) :
    (TclhPointerRegister registryP p t m).code = .ok
    ∧ (TclhPointerRegister registryP p t m).handleObj = some (p, t)
    ∧ (m = .pinned →
        (∀ r, alistLookup registryP.pointers p = some r →
          r.nRefs ≠ TCLH_POINTER_NREFS_MAX) →
        alistLookup (TclhPointerRegister registryP p t m).registry.pointers p
          = some ⟨none, TCLH_POINTER_NREFS_MAX⟩) := by
  cases hl : alistLookup registryP.pointers p with
  | none =>
    rw [TclhPointerRegister_new registryP p t m h0 hl]
    refine ⟨rfl, rfl, ?_⟩
    intro hm _
    subst hm
    exact alistLookup_insert_self _ _ _
  | some r =>
    by_cases hmax : r.nRefs = TCLH_POINTER_NREFS_MAX
    · rw [TclhPointerRegister_pinnedEntry registryP p t m r h0 hl hmax]
      refine ⟨rfl, rfl, ?_⟩
      intro _ hpre
      exact absurd hmax (hpre r rfl)
    · cases m with
      | pinned =>
        rw [TclhPointerRegister_repin registryP p t r h0 hl hmax]
        refine ⟨rfl, rfl, ?_⟩
        intro _ _
        exact alistLookup_insert_self _ _ _
      | uncounted =>
        by_cases hdup : PointerTypeCompatible registryP t r.tagObj = true
            ∧ r.nRefs < 0
        · rw [TclhPointerRegister_dupUncounted registryP p t r h0 hl hmax
            hdup.1 hdup.2]
          exact ⟨rfl, rfl, fun hm _ => absurd hm (by simp)⟩
        · rw [TclhPointerRegister_overwrite registryP p t .uncounted r h0 hl hmax
            (by simp) (fun hx => hdup ⟨hx.1, hx.2.2⟩)
            (fun hx => absurd hx.2.1 (by simp))]
          exact ⟨rfl, rfl, fun hm _ => absurd hm (by simp)⟩
      | counted =>
        by_cases hdup : PointerTypeCompatible registryP t r.tagObj = true
            ∧ r.nRefs > 0
        · rw [TclhPointerRegister_dupCounted registryP p t r h0 hl hmax
            hdup.1 hdup.2]
          exact ⟨rfl, rfl, fun hm _ => absurd hm (by simp)⟩
        · rw [TclhPointerRegister_overwrite registryP p t .counted r h0 hl hmax
            (by simp) (fun hx => absurd hx.2.1 (by simp))
            (fun hx => hdup ⟨hx.1, hx.2.2⟩)]
          exact ⟨rfl, rfl, fun hm _ => absurd hm (by simp)⟩

/-- C2 (witness): the amended register theorem at address 0x1000, tag `T`,
Pinned mode, on the empty registry. -/
theorem tclh_c2_register_amended_witness :
    ((4096 : Nat) ≠ 0)
    ∧ (TclhPointerRegister ⟨[], []⟩ 4096 (some "T") .pinned).handleObj
        = some (4096, some "T")
    ∧ alistLookup (TclhPointerRegister ⟨[], []⟩ 4096 (some "T") .pinned).registry.pointers 4096
        = some ⟨none, TCLH_POINTER_NREFS_MAX⟩ :=
  ⟨by decide,
    (tclh_c2_register_amended ⟨[], []⟩ 4096 (some "T") .pinned (by decide)).2.1,
    (tclh_c2_register_amended ⟨[], []⟩ 4096 (some "T") .pinned (by decide)).2.2
      rfl (fun r hr => by simp [alistLookup] at hr)⟩

/-- C5: counted reference counts. A further compatible Counted registration
on an entry with count `1 ≤ n < TCLH_POINTER_NREFS_MAX` increments the count
by exactly one, keeping the entry's tag; an entry already at the maximum is
left entirely unchanged (saturation, staying saturated); and every operation
of the registration API preserves the well-formedness of counts — each
record's `nRefs` is the uncounted sentinel `-1` or lies in
`[1, TCLH_POINTER_NREFS_MAX]`, so the count of a live counted entry stays at
least 1 and never wraps. -/
theorem tclh_c5_counted_saturation :
    (∀ (registryP : TclhPointerRegistry) (p : Nat) (t : Tclh_PointerTypeTag)
        (r : TclhPointerRecord),
      p ≠ 0 →
      alistLookup registryP.pointers p = some r →
      0 < r.nRefs → r.nRefs < TCLH_POINTER_NREFS_MAX →
      PointerTypeCompatible registryP t r.tagObj = true →
      (TclhPointerRegister registryP p t .counted).code = .ok
      ∧ alistLookup (TclhPointerRegister registryP p t .counted).registry.pointers p
          = some ⟨r.tagObj, r.nRefs + 1⟩)
    ∧ (∀ (registryP : TclhPointerRegistry) (p : Nat) (t : Tclh_PointerTypeTag)
        (r : TclhPointerRecord),
      p ≠ 0 →
      alistLookup registryP.pointers p = some r →
      r.nRefs = TCLH_POINTER_NREFS_MAX →
      TclhPointerRegister registryP p t .counted = ⟨.ok, some (p, t), registryP⟩)
    ∧ (∀ (registryP : TclhPointerRegistry) (p : Nat) (t : Tclh_PointerTypeTag)
        (m : Tclh_PointerRegistrationType),
      WfCounts registryP → WfCounts (TclhPointerRegister registryP p t m).registry)
    ∧ (∀ (registryP : TclhPointerRegistry) (p : Nat) (t : Tclh_PointerTypeTag)
        (c : Int), 0 ≤ c → WfCounts registryP →
      WfCounts (PointerVerifyOrUnregisterTagged registryP p t c).2)
    ∧ (∀ (registryP : TclhPointerRegistry) (p : Nat),
      WfCounts registryP → WfCounts (Tclh_PointerUnregister registryP p).2) := by
  refine ⟨?_, ?_,
    fun registryP p t m h => WfCounts_TclhPointerRegister registryP p t m h,
    fun registryP p t c hc h =>
      WfCounts_PointerVerifyOrUnregisterTagged registryP p t c hc h,
    fun registryP p h => WfCounts_Tclh_PointerUnregister registryP p h⟩
  · intro registryP p t r h0 hl hpos hlt hcompat
    rw [TclhPointerRegister_dupCounted registryP p t r h0 hl (by omega) hcompat hpos]
    exact ⟨rfl, alistLookup_insert_self _ _ _⟩
  · intro registryP p t r h0 hl hmax
    exact TclhPointerRegister_pinnedEntry registryP p t .counted r h0 hl hmax

/-- C5 (witness): a compatible Counted re-registration on an entry with
count 3 yields count 4, and a saturated entry stays unchanged. -/
theorem tclh_c5_counted_saturation_witness :
    ((7 : Nat) ≠ 0)
    ∧ alistLookup c5WitReg.pointers 7 = some ⟨some "T", 3⟩
    ∧ (0 : Int) < 3 ∧ (3 : Int) < TCLH_POINTER_NREFS_MAX
    ∧ PointerTypeCompatible c5WitReg (some "T") (some "T") = true
    ∧ alistLookup (TclhPointerRegister c5WitReg 7 (some "T") .counted).registry.pointers 7
        = some ⟨some "T", 3 + 1⟩ :=
  ⟨by decide, by decide, by decide, by decide, by decide,
    (tclh_c5_counted_saturation.1 c5WitReg 7 (some "T") ⟨some "T", 3⟩
      (by decide) (by decide) (by decide) (by decide) (by decide)).2⟩

/-- C6 (counterexample): pin immunity fails from the reachable state in which
the entry for the address is a counted record that has saturated at
`TCLH_POINTER_NREFS_MAX` while keeping its tag. The last conjunct shows one
ordinary compatible counted registration carries `c6CexPre` (count
`TCLH_POINTER_NREFS_MAX - 1`, tag `X`) into exactly that state. There,
`register(5, none, Pinned)` is a complete no-op (the record keeps tag `X`),
and the subsequent `unregister(5, none)` and `verify(5, none)` both fail with
the TypeMismatch error instead of being a no-op success and a successful
verification as the claim demands. -/
theorem tclh_c6_cex :
    (TclhPointerRegister c6CexReg 5 none .pinned).registry = c6CexReg
    ∧ alistLookup ((TclhPointerRegister c6CexReg 5 none .pinned).registry).pointers 5
        = some ⟨some "X", TCLH_POINTER_NREFS_MAX⟩
    ∧ (Tclh_PointerUnregisterTagged
        (TclhPointerRegister c6CexReg 5 none .pinned).registry 5 none).1
        = .errTypeMismatch
    ∧ (Tclh_PointerVerifyTagged
        (TclhPointerRegister c6CexReg 5 none .pinned).registry 5 none).1
        = .errTypeMismatch
    ∧ alistLookup ((TclhPointerRegister c6CexPre 5 (some "X") .counted).registry).pointers 5
        = some ⟨some "X", TCLH_POINTER_NREFS_MAX⟩ := by
  exact ⟨by decide, by decide, by decide, by decide, by decide⟩

/-- C6 (amended): pin immunity holds for every non-null address `p` whose
prior entry (if any) is not a counted record already saturated at the pinned
count while carrying a tag (the corner `tclh_c6_cex` exhibits): after
`register(p, none, Pinned)` the entry is the untagged pinned record; every
tagged unregister of `p` — with any tag — is a no-op returning success, so
any finite sequence of unregisters leaves the registry unchanged; the
untagged unregister is likewise a no-op success; `verify(p, none)` succeeds;
and `invalidate(p, t)` removes the entry for any tag `t`. -/
theorem tclh_c6_pin_immunity (reg0 : TclhPointerRegistry) (p : Nat)
    (ts : List Tclh_PointerTypeTag) (t' : Tclh_PointerTypeTag)
    (h0 : p ≠ 0)
    (hnd : (reg0.pointers.map Prod.fst).Nodup)
    (hpre : ∀ r, alistLookup reg0.pointers p = some r →
      r.nRefs = TCLH_POINTER_NREFS_MAX → r.tagObj = none) :
    alistLookup (TclhPointerRegister reg0 p none .pinned).registry.pointers p
      = some ⟨none, TCLH_POINTER_NREFS_MAX⟩
    ∧ (∀ tg, Tclh_PointerUnregisterTagged
        (TclhPointerRegister reg0 p none .pinned).registry p tg
        = (.ok, (TclhPointerRegister reg0 p none .pinned).registry))
    ∧ ts.foldl (fun s tg => (Tclh_PointerUnregisterTagged s p tg).2)
        (TclhPointerRegister reg0 p none .pinned).registry
        = (TclhPointerRegister reg0 p none .pinned).registry
    ∧ Tclh_PointerUnregister (TclhPointerRegister reg0 p none .pinned).registry p
        = (.ok, (TclhPointerRegister reg0 p none .pinned).registry)
    ∧ (Tclh_PointerVerifyTagged
        (TclhPointerRegister reg0 p none .pinned).registry p none).1 = .ok
    ∧ (Tclh_PointerInvalidateTagged
        (TclhPointerRegister reg0 p none .pinned).registry p t').1 = .ok
    ∧ alistLookup ((Tclh_PointerInvalidateTagged
        (TclhPointerRegister reg0 p none .pinned).registry p t').2).pointers p
      = none := by
  have hkey : alistLookup (TclhPointerRegister reg0 p none .pinned).registry.pointers p
      = some ⟨none, TCLH_POINTER_NREFS_MAX⟩
      ∧ (((TclhPointerRegister reg0 p none .pinned).registry.pointers).map Prod.fst).Nodup := by
    cases hl0 : alistLookup reg0.pointers p with
    | none =>
      rw [TclhPointerRegister_new reg0 p none .pinned h0 hl0]
      exact ⟨alistLookup_insert_self _ _ _, alistInsert_keys_nodup _ _ _ hnd⟩
    | some r =>
      by_cases hmax : r.nRefs = TCLH_POINTER_NREFS_MAX
      · rw [TclhPointerRegister_pinnedEntry reg0 p none .pinned r h0 hl0 hmax]
        have htg := hpre r hl0 hmax
        have hr : r = ⟨none, TCLH_POINTER_NREFS_MAX⟩ := by
          cases r
          simp_all
        constructor
        · rw [hl0, hr]
        · exact hnd
      · rw [TclhPointerRegister_repin reg0 p none r h0 hl0 hmax]
        exact ⟨alistLookup_insert_self _ _ _, alistInsert_keys_nodup _ _ _ hnd⟩
  obtain ⟨hlook, hnd'⟩ := hkey
  have hstep : ∀ tg, Tclh_PointerUnregisterTagged
      (TclhPointerRegister reg0 p none .pinned).registry p tg
      = (.ok, (TclhPointerRegister reg0 p none .pinned).registry) := by
    intro tg
    unfold Tclh_PointerUnregisterTagged
    exact PointerVOU_pinned_noop _ p tg 1 ⟨none, TCLH_POINTER_NREFS_MAX⟩ hlook
      (PointerTypeCompatible_expected_none _ tg) rfl (by norm_num)
      (by norm_num [TCLH_POINTER_NREFS_MAX])
  have hfold : ts.foldl (fun s tg => (Tclh_PointerUnregisterTagged s p tg).2)
      (TclhPointerRegister reg0 p none .pinned).registry
      = (TclhPointerRegister reg0 p none .pinned).registry := by
    induction ts with
    | nil => rfl
    | cons a l ih =>
      rw [List.foldl_cons, hstep a]
      exact ih
  refine ⟨hlook, hstep, hfold, ?_, ?_, ?_, ?_⟩
  · exact Tclh_PointerUnregister_pinned _ p ⟨none, TCLH_POINTER_NREFS_MAX⟩ hlook rfl
  · unfold Tclh_PointerVerifyTagged
    rw [PointerVOU_verify _ p none ⟨none, TCLH_POINTER_NREFS_MAX⟩ hlook
      (PointerTypeCompatible_expected_none _ none)]
  · unfold Tclh_PointerInvalidateTagged
    rw [PointerVOU_pinned_invalidate _ p t' ⟨none, TCLH_POINTER_NREFS_MAX⟩ hlook
      (PointerTypeCompatible_expected_none _ t') rfl]
  · unfold Tclh_PointerInvalidateTagged
    rw [PointerVOU_pinned_invalidate _ p t' ⟨none, TCLH_POINTER_NREFS_MAX⟩ hlook
      (PointerTypeCompatible_expected_none _ t') rfl]
    exact alistLookup_remove_self _ _ hnd'

/-- C6 (witness): pin immunity at address 5 starting from the empty registry,
with the unregister sequence [`A`, none] and invalidation tag `B`. -/
theorem tclh_c6_pin_immunity_witness :
    ((5 : Nat) ≠ 0)
    ∧ (Tclh_PointerVerifyTagged
        (TclhPointerRegister ⟨[], []⟩ 5 none .pinned).registry 5 none).1 = .ok
    ∧ alistLookup ((Tclh_PointerInvalidateTagged
        (TclhPointerRegister ⟨[], []⟩ 5 none .pinned).registry 5 (some "B")).2).pointers 5
      = none :=
  ⟨by decide,
    (tclh_c6_pin_immunity ⟨[], []⟩ 5 [some "A", none] (some "B") (by decide)
      (by decide) (fun r hr => by simp [alistLookup] at hr)).2.2.2.2.1,
    (tclh_c6_pin_immunity ⟨[], []⟩ 5 [some "A", none] (some "B") (by decide)
      (by decide) (fun r hr => by simp [alistLookup] at hr)).2.2.2.2.2.2⟩

/-- C7 (counterexample): invalidation is not unconditional in the tag. With
address 1 registered under tag `Foo` and no subtag edges,
`Tclh_PointerInvalidateTagged(1, "Bar")` reports a type-mismatch error and
leaves the entry in place instead of removing it. -/
theorem tclh_c7_cex :
    (Tclh_PointerInvalidateTagged c7CexReg 1 (some "Bar")).1 = .errTypeMismatch
    ∧ alistLookup ((Tclh_PointerInvalidateTagged c7CexReg 1 (some "Bar")).2).pointers 1
        = some ⟨some "Foo", -1⟩ := by
  exact ⟨by decide, by decide⟩

/-- C7 (amended): `Tclh_PointerInvalidateTagged(p, t)` first checks the tag
like `unregister` does; when `t` is compatible with the stored tag it removes
the entry unconditionally — including Pinned entries and regardless of the
(int-range) reference count; with an incompatible `t` it fails with a
TypeMismatch error and keeps the entry; and, unlike
`Tclh_PointerUnregisterTagged` (which fails with NotRegistered), it returns
success without any error when no entry for `p` exists. -/
theorem tclh_c7_invalidate_amended (registryP : TclhPointerRegistry) (p : Nat)
    (t : Tclh_PointerTypeTag)
    (hnd : (registryP.pointers.map Prod.fst).Nodup) :
    (∀ r, alistLookup registryP.pointers p = some r →
      PointerTypeCompatible registryP t r.tagObj = true →
      r.nRefs ≤ TCLH_POINTER_NREFS_MAX →
      (Tclh_PointerInvalidateTagged registryP p t).1 = .ok
      ∧ alistLookup ((Tclh_PointerInvalidateTagged registryP p t).2).pointers p = none)
    ∧ (∀ r, alistLookup registryP.pointers p = some r →
      PointerTypeCompatible registryP t r.tagObj = false →
      Tclh_PointerInvalidateTagged registryP p t = (.errTypeMismatch, registryP))
    ∧ (alistLookup registryP.pointers p = none →
      Tclh_PointerInvalidateTagged registryP p t = (.ok, registryP)
      ∧ (Tclh_PointerUnregisterTagged registryP p t).1 = .errNotRegistered) := by
  refine ⟨?_, ?_, ?_⟩
  · intro r hl hc hle
    unfold Tclh_PointerInvalidateTagged
    by_cases hmax : r.nRefs = TCLH_POINTER_NREFS_MAX
    · rw [PointerVOU_pinned_invalidate registryP p t r hl hc hmax]
      exact ⟨rfl, alistLookup_remove_self _ _ hnd⟩
    · rw [PointerVOU_remove registryP p t TCLH_POINTER_NREFS_MAX r hl hc hmax
        (by norm_num [TCLH_POINTER_NREFS_MAX]) hle]
      exact ⟨rfl, alistLookup_remove_self _ _ hnd⟩
  · intro r hl hc
    exact PointerVOU_mismatch registryP p t TCLH_POINTER_NREFS_MAX r hl hc
  · intro hl
    refine ⟨PointerVOU_missing_invalidate registryP p t hl, ?_⟩
    unfold Tclh_PointerUnregisterTagged
    rw [PointerVOU_missing registryP p t 1 hl
      (by norm_num [TCLH_POINTER_NREFS_MAX])]

/-- C7 (witness): invalidation removes even a pinned-count entry when the
tag is compatible. -/
theorem tclh_c7_invalidate_amended_witness :
    ((([(3, (⟨some "X", TCLH_POINTER_NREFS_MAX⟩ : TclhPointerRecord))].map Prod.fst) :
        List Nat).Nodup)
    ∧ alistLookup (TclhPointerRegistry.mk
        [(3, ⟨some "X", TCLH_POINTER_NREFS_MAX⟩)] []).pointers 3
        = some ⟨some "X", TCLH_POINTER_NREFS_MAX⟩
    ∧ ((Tclh_PointerInvalidateTagged
        (TclhPointerRegistry.mk [(3, ⟨some "X", TCLH_POINTER_NREFS_MAX⟩)] [])
        3 (some "X")).1 = .ok
      ∧ alistLookup ((Tclh_PointerInvalidateTagged
          (TclhPointerRegistry.mk [(3, ⟨some "X", TCLH_POINTER_NREFS_MAX⟩)] [])
          3 (some "X")).2).pointers 3 = none) :=
  ⟨by decide, by decide,
    (tclh_c7_invalidate_amended
        (TclhPointerRegistry.mk [(3, ⟨some "X", TCLH_POINTER_NREFS_MAX⟩)] [])
        3 (some "X") (by decide)).1
      ⟨some "X", TCLH_POINTER_NREFS_MAX⟩ (by decide) (by decide) (by decide)⟩

/-- C8: bounded tag traversal. `PointerTagIsAncestor` finds exactly the
ancestors reachable by following between 1 and 10 subtag edges (the fixed
hop bound in the source), for every edge set including cyclic ones — all
model functions are total, so every query terminates. On the deliberately
cyclic edge set `A -> B`, `B -> A`, the relation query between `A` and the
unrelated tag `C` returns Unrelated and the compatibility check returns
false instead of looping; on an 11-edge chain, the tag 10 hops up is found
while the tag 11 hops up is not (the bound cuts the search). -/
theorem tclh_c8_bounded_traversal :
    (∀ (registryP : TclhPointerRegistry) (t b : String),
      PointerTagIsAncestor registryP (some t) (some b) = true ↔
        ∃ k, 1 ≤ k ∧ k ≤ 10 ∧ iterSuper registryP.castables k t = some b)
    ∧ PointerTagCompare cyclicTagReg (some "A") (some "C")
        = Tclh_PointerTagRelation.unrelated
    ∧ PointerTypeCompatible cyclicTagReg (some "A") (some "C") = false
    ∧ PointerTagIsAncestor chainTagReg (some "T0") (some "T10") = true
    ∧ PointerTagIsAncestor chainTagReg (some "T0") (some "T11") = false := by
  refine ⟨?_, by decide, by decide, by decide, by decide⟩
  intro registryP t b
  exact PointerTagIsAncestorLoop_iff_iterSuper registryP.castables 10 t b

/-- C9: the scenario. From the empty registry with no subtag edges:
`register(0x1000, Foo, Uncounted)` succeeds; `verify(0x1000, Foo)` succeeds;
`register(0x1000, Bar, Uncounted)` succeeds and overwrites the stored tag to
`Bar` (count stays the uncounted sentinel); `verify(0x1000, Foo)` now fails
with the TypeMismatch error; `unregister(0x1000, Bar)` succeeds and removes
the entry; `verify(0x1000, Bar)` then fails with the NotRegistered error. -/
theorem tclh_c9_scenario :
    (TclhPointerRegister tclhScenarioReg0 4096 (some "Foo") .uncounted).code = .ok
    ∧ (Tclh_PointerVerifyTagged tclhScenarioReg1 4096 (some "Foo")).1 = .ok
    ∧ (TclhPointerRegister tclhScenarioReg1 4096 (some "Bar") .uncounted).code = .ok
    ∧ alistLookup tclhScenarioReg2.pointers 4096 = some ⟨some "Bar", -1⟩
    ∧ (Tclh_PointerVerifyTagged tclhScenarioReg2 4096 (some "Foo")).1
        = .errTypeMismatch
    ∧ (Tclh_PointerUnregisterTagged tclhScenarioReg2 4096 (some "Bar")).1 = .ok
    ∧ alistLookup tclhScenarioReg3.pointers 4096 = none
    ∧ (Tclh_PointerVerifyTagged tclhScenarioReg3 4096 (some "Bar")).1
        = .errNotRegistered := by
  exact ⟨by decide, by decide, by decide, by decide, by decide, by decide,
    by decide, by decide⟩

/-- C10: unwrapping the NULL handle. For every registry state and every
expected tag, `Tclh_PointerUnwrapTagged` on a pointer object whose address is
null and whose tag is NULL succeeds and returns the null address with the
NULL tag: the tag-compatibility check is skipped because both the unwrapped
pointer and its tag are null, so the `NULL` handle passes unwrap against
every expected tag. -/
theorem tclh_c10_null_unwrap (registryP : TclhPointerRegistry)
    (expectedTag : Tclh_PointerTypeTag) :
    Tclh_PointerUnwrapTagged registryP (0, none) expectedTag
      = (.ok, some (0, none)) := by
  unfold Tclh_PointerUnwrapTagged
  rw [if_neg]
  rintro ⟨h1, h2, h3⟩
  rcases h2 with h2 | h2 <;> exact h2 rfl
